import Mathlib

/-!
Shallow embedding of `experiment_app.py`: a two-workflow instructional
chemistry simulator (phenol–water CST determination and a conductometric
titration).  Python floats are modelled as rationals; the pandas tables are
modelled as ordered lists of records.  Each definition mirrors one function
or code block of the source file.
-/

namespace ExperimentApp

/-! ## Disappearance / reappearance temperature model (`calculate_temps`) -/

/-- Segment formula of `calculate_temps` for `percent_phenol < 10`. -/
def disappearSeg0 (p : ℚ) : ℚ := 32 + p * 3.5

/-- Segment formula of `calculate_temps` for `10 ≤ percent_phenol < 30`. -/
def disappearSeg1 (p : ℚ) : ℚ := 65 + (p - 10) * 0.25

/-- Segment formula of `calculate_temps` for `30 ≤ percent_phenol < 70`. -/
def disappearSeg2 (p : ℚ) : ℚ := 70 - (p - 30) * 0.1

/-- Segment formula of `calculate_temps` for `percent_phenol ≥ 70`. -/
def disappearSeg3 (p : ℚ) : ℚ := 66 - (p - 70) * 0.3

/-- The piecewise disappearance-temperature model of `calculate_temps`. -/
def disappearTemp (p : ℚ) : ℚ :=
  if p < 10 then disappearSeg0 p
  else if p < 30 then disappearSeg1 p
  else if p < 70 then disappearSeg2 p
  else disappearSeg3 p

/-- `reappear = disappear - (2 + percent_phenol * 0.05)` in `calculate_temps`. -/
def reappearTemp (p : ℚ) : ℚ := disappearTemp p - (2 + p * 0.05)

/-- `percent_phenol = (phenol_vol / total) * 100` as computed in
`phenol_exp2` and `phenol_exp3` with `total = phenol + water`. -/
def percentPhenol (phenol water : ℚ) : ℚ := phenol / (phenol + water) * 100

/-- `mean_temp = (disappear + reappear) / 2` in `phenol_exp3`. -/
def meanTemp (disappear reappear : ℚ) : ℚ := (disappear + reappear) / 2

/-! ## Conductance model (`cond_titration`) -/

/-- Branch of `cond_titration` taken when `naoh_added ≤ 4.0`. -/
def conductanceLow (x : ℚ) : ℚ := 0.8 - 0.02 * (x / 0.2)

/-- Branch of `cond_titration` taken when `naoh_added > 4.0`. -/
def conductanceHigh (x : ℚ) : ℚ := 0.6 + 0.03 * ((x - 4.0) / 0.2)

/-- The conductance model of `cond_titration`. -/
def conductanceModel (x : ℚ) : ℚ :=
  if x ≤ 4.0 then conductanceLow x else conductanceHigh x

/-! ## Standardization (`cond_standardize`) -/

/-- `naoh_normality = (oxalic_vol * oxalic_normality) / naoh_used` with the
fixed titrant `oxalic_vol = 25.0`, `oxalic_normality = 0.05`. -/
def naohNormality (naohUsed : ℚ) : ℚ := (25.0 * 0.05) / naohUsed

/-- Python's `f"{x:.4f}"` display of a value in [0,1): the integer of
ten-thousandths shown after rounding to four decimal places. -/
def display4 (x : ℚ) : ℤ := round (x * 10 ^ 4)

/-! ## Phenol table (`st.session_state.phenol_data`) -/

/-- One row of the phenol table, with the columns of the pandas frame. -/
structure PhenolRecord where
  phenolMl : ℚ
  waterMl : ℚ
  percentC : ℚ
  disappearC : ℚ
  reappearC : ℚ
  meanC : ℚ
deriving DecidableEq

/-- The row test of `phenol_exp3`: both volume columns equal the stored
session volumes. -/
def matchesPair (pv wv : ℚ) (q : PhenolRecord) : Bool :=
  decide (q.phenolMl = pv) && decide (q.waterMl = wv)

/-- Number of rows of the table matching the `(phenolMl, waterMl)` pair. -/
def pairCount (pv wv : ℚ) (t : List PhenolRecord) : ℕ :=
  (t.filter (matchesPair pv wv)).length

/-- The table mutation of `phenol_exp3`: if no existing row matches the
stored `(phenol_vol, water_vol)` pair, append a new row built from the
stored session values; otherwise leave the table unchanged. -/
def phenolRecordStep (pv wv total dis rea : ℚ) (t : List PhenolRecord) :
    List PhenolRecord :=
  if (t.filter (matchesPair pv wv)).isEmpty then
    t ++ [⟨pv, wv, pv / total * 100, dis, rea, (dis + rea) / 2⟩]
  else t

/-- `DataFrame.drop_duplicates` on the table: keep the first occurrence of
each full record. -/
def dedupKeepFirst (t : List PhenolRecord) : List PhenolRecord :=
  t.foldl (fun acc r => if r ∈ acc then acc else acc ++ [r]) []

/-- Stable insertion of a row into a list sorted ascending by the
`% Phenol` column: the row goes after all rows of no greater key. -/
def insertByPct (r : PhenolRecord) : List PhenolRecord → List PhenolRecord
  | [] => [r]
  | q :: qs =>
    if r.percentC < q.percentC then r :: q :: qs else q :: insertByPct r qs

/-- `DataFrame.sort_values` by the `% Phenol` column, ascending. -/
def sortByPct (t : List PhenolRecord) : List PhenolRecord :=
  t.foldl (fun acc r => insertByPct r acc) []

/-- `idxmax` on the `Mean Temp` column: the first row of the list holding
the maximum mean temperature. -/
def firstMax : List PhenolRecord → Option PhenolRecord
  | [] => none
  | r :: rs =>
    match firstMax rs with
    | none => some r
    | some b => if b.meanC > r.meanC then some b else some r

/-- The CST point `(cst_temp, cst_conc)` extracted by `phenol_graph` from
the de-duplicated table sorted ascending by `% Phenol`. -/
def cstPoint (t : List PhenolRecord) : Option (ℚ × ℚ) :=
  (firstMax (sortByPct (dedupKeepFirst t))).map fun r => (r.meanC, r.percentC)

/-! ## Conductance table (`st.session_state.cond_data`) -/

/-- One row of the conductance table. -/
structure CondRecord where
  naohMl : ℚ
  conductanceMs : ℚ
deriving DecidableEq

/-- `naoh_added in cond_data["NaOH (ml)"].values`. -/
def isKey (x : ℚ) (t : List CondRecord) : Bool :=
  t.any fun q => decide (q.naohMl = x)

/-- Number of rows of the conductance table whose key column equals `x`. -/
def keyCount (x : ℚ) (t : List CondRecord) : ℕ :=
  (t.filter fun q => decide (q.naohMl = x)).length

/-- The "Record Measurement" mutation of `cond_titration`: append
`{naoh_added, conductance}` only when `naoh_added` is not already a key. -/
def condRecordStep (x : ℚ) (t : List CondRecord) : List CondRecord :=
  if isKey x t then t else t ++ [⟨x, conductanceModel x⟩]

/-! ## Session state and navigation -/

/-- "Add More Water (+2ml)" in `phenol_exp3`:
`water_vol := min (water_vol + 2) 36.0`. -/
def addMoreWater (w : ℚ) : ℚ := min (w + 2) 36

/-- The session-scoped state bag initialised on first access. -/
structure SessionState where
  page : String
  phenol_data : List PhenolRecord
  water_vol : ℚ
  cond_data : List CondRecord
  naoh_normality : ℚ
  current_naoh : ℚ
deriving DecidableEq

/-- The initial session state created at lines 7–16 of the source. -/
def initSession : SessionState :=
  { page := "home", phenol_data := [], water_vol := 3.0, cond_data := [],
    naoh_normality := 0.1, current_naoh := 0.0 }

/-- The "Proceed to Titration" button of `cond_standardize`: sets only the
current page. -/
def proceedToTitration (s : SessionState) : SessionState :=
  { s with page := "cond_titration" }

/-- The "Calculate NaOH Normality" button of `cond_standardize`. -/
def calcNormality (naohUsed : ℚ) (s : SessionState) : SessionState :=
  { s with naoh_normality := naohNormality naohUsed }

end ExperimentApp

namespace ExperimentApp

/-- `firstMax` never returns `none` on a nonempty list. -/
theorem firstMax_cons_ne_none (a : PhenolRecord) (rs : List PhenolRecord) :
    firstMax (a :: rs) ≠ none := by
  rw [firstMax]
  cases h : firstMax rs with
  | none => simp
  | some b =>
    simp only
    split <;> simp

/-- `firstMax` returns a member of the list that bounds every mean
temperature from above and is preceded only by strictly smaller ones. -/
theorem firstMax_spec (t : List PhenolRecord) (r : PhenolRecord)
    (h : firstMax t = some r) :
    r ∈ t ∧ (∀ q ∈ t, q.meanC ≤ r.meanC) ∧
      ∃ l₁ l₂, t = l₁ ++ r :: l₂ ∧ ∀ q ∈ l₁, q.meanC < r.meanC := by
  induction t generalizing r with
  | nil => simp [firstMax] at h
  | cons a rs ih =>
    simp only [firstMax] at h
    cases hrs : firstMax rs with
    | none =>
      rw [hrs] at h
      simp only [Option.some.injEq] at h
      subst h
      have hnil : rs = [] := by
        cases rs with
        | nil => rfl
        | cons b bs => exact absurd hrs (firstMax_cons_ne_none b bs)
      subst hnil
      exact ⟨by simp, by simp, [], [], rfl, by simp⟩
    | some b =>
      rw [hrs] at h
      simp only at h
      split at h
      next hgt =>
        simp only [Option.some.injEq] at h
        subst h
        obtain ⟨hmem, hub, l₁, l₂, heq, hlt⟩ := ih b hrs
        refine ⟨List.mem_cons_of_mem a hmem, ?_, a :: l₁, l₂,
          by rw [heq, List.cons_append], ?_⟩
        · intro q hq
          rcases List.mem_cons.mp hq with hqa | hqrs
          · exact hqa ▸ le_of_lt hgt
          · exact hub q hqrs
        · intro q hq
          rcases List.mem_cons.mp hq with hqa | hql
          · exact hqa ▸ hgt
          · exact hlt q hql
      next hle =>
        simp only [Option.some.injEq] at h
        subst h
        push_neg at hle
        obtain ⟨hmem, hub, _, _, _, _⟩ := ih b hrs
        refine ⟨List.mem_cons_self a rs, ?_, [], rs, rfl, by simp⟩
        intro q hq
        rcases List.mem_cons.mp hq with hqa | hqrs
        · exact hqa ▸ le_refl _
        · exact le_trans (hub q hqrs) hle

/-- Repeated "add more water" stays at or below the cap. -/
theorem addMoreWater_iterate_le (n : ℕ) (w : ℚ) (h : w ≤ 36) :
    addMoreWater^[n] w ≤ 36 := by
  induction n generalizing w with
  | zero => simpa using h
  | succ n ih =>
    rw [Function.iterate_succ_apply]
    exact ih _ (by rw [addMoreWater]; exact min_le_right _ _)

/-- A key absent from the conductance table has filter count zero. -/
theorem keyCount_eq_zero_of_not_isKey (x : ℚ) (t : List CondRecord)
    (h : isKey x t = false) : keyCount x t = 0 := by
  rw [keyCount, List.length_eq_zero, List.filter_eq_nil_iff]
  intro q hq
  simp only [decide_eq_true_eq]
  intro hqx
  have : isKey x t = true := by
    rw [isKey, List.any_eq_true]
    exact ⟨q, hq, by simp [hqx]⟩
  simp [this] at h

/-- C1 as stated is false: the code evaluates the first branch at
`naoh_added = 4.0`, giving conductance `0.4`, not `0.6`, and the two branch
formulas disagree at the boundary. -/
theorem conductance_at_four_counterexample :
    conductanceModel 4.0 = 0.4 ∧ conductanceModel 4.0 ≠ 0.6 ∧
      conductanceLow 4.0 ≠ conductanceHigh 4.0 := by
  refine ⟨?_, ?_, ?_⟩ <;>
    norm_num [conductanceModel, conductanceLow, conductanceHigh]

/-- C1 (amended): the conductance model evaluates to `0.8` at `0.0`, to
`0.4` at `4.0` (the low branch applies there), and to `1.2` at `8.0`; the
two branch formulas disagree at the boundary, where the low branch gives
`0.4` and the high branch gives `0.6`. -/
theorem conductance_model_values :
    conductanceModel 0.0 = 0.8 ∧ conductanceModel 4.0 = 0.4 ∧
      conductanceModel 8.0 = 1.2 ∧
      conductanceLow 4.0 = 0.4 ∧ conductanceHigh 4.0 = 0.6 := by
  refine ⟨?_, ?_, ?_, ?_, ?_⟩ <;>
    norm_num [conductanceModel, conductanceLow, conductanceHigh]

/-- C2 as stated is false: at the boundary `10` the segment formula for the
interval below gives `67` while the model's value at the boundary is `65`,
a jump of `2`. -/
theorem disappear_boundary_ten_counterexample :
    disappearSeg0 10 = 67 ∧ disappearTemp 10 = 65 ∧
      disappearSeg0 10 ≠ disappearTemp 10 := by
  refine ⟨?_, ?_, ?_⟩ <;>
    norm_num [disappearSeg0, disappearSeg1, disappearTemp]

/-- C2 (amended): the disappearance-temperature model is continuous at the
segment boundaries `30` and `70` (the formula of the segment below agrees
with the value at the boundary), but discontinuous at `10`, where the
segment formula from below exceeds the boundary value by exactly `2`. -/
theorem disappear_boundary_continuity :
    disappearSeg1 30 = disappearTemp 30 ∧
      disappearSeg2 70 = disappearTemp 70 ∧
      disappearSeg0 10 = disappearTemp 10 + 2 := by
  refine ⟨?_, ?_, ?_⟩ <;>
    norm_num [disappearSeg0, disappearSeg1, disappearSeg2, disappearSeg3,
      disappearTemp]

/-- C4: for every `percentPhenol` in `[0, 100]` the reappearance
temperature `disappearTemp p - (2 + 0.05 * p)` is strictly below the
disappearance temperature. -/
theorem reappear_lt_disappear (p : ℚ) (h0 : 0 ≤ p) (_h1 : p ≤ 100) :
    reappearTemp p < disappearTemp p := by
  unfold reappearTemp
  nlinarith

/-- Witness for C4 at `p = 50`. -/
theorem reappear_lt_disappear_witness :
    reappearTemp 50 < disappearTemp 50 :=
  reappear_lt_disappear 50 (by norm_num) (by norm_num)

/-- C5: for phenol `5.0` ml and water `3.0` ml the observe-transition and
record steps compute total `8.0`, percent phenol `62.5`, disappearance
temperature `66.75`, reappearance temperature `61.625` and mean `64.1875`. -/
theorem phenol_five_water_three_values :
    (5.0 : ℚ) + 3.0 = 8.0 ∧ percentPhenol 5.0 3.0 = 62.5 ∧
      disappearTemp (percentPhenol 5.0 3.0) = 66.75 ∧
      reappearTemp (percentPhenol 5.0 3.0) = 61.625 ∧
      meanTemp 66.75 61.625 = 64.1875 := by
  refine ⟨by norm_num, ?_, ?_, ?_, by norm_num [meanTemp]⟩ <;>
    norm_num [percentPhenol, disappearTemp, reappearTemp, disappearSeg2]

/-- C8: the standardization formula at `naohUsed = 18.5` gives `5/74`,
which is within `10⁻⁶` of `0.067568` and displays as `0.0676` (676
ten-thousandths) at four decimal places. -/
theorem normality_at_default :
    naohNormality 18.5 = 5 / 74 ∧
      |naohNormality 18.5 - 0.067568| < 1 / 10 ^ 6 ∧
      display4 (naohNormality 18.5) = 676 := by
  refine ⟨?_, ?_, ?_⟩
  · norm_num [naohNormality]
  · rw [abs_sub_lt_iff]
    norm_num [naohNormality]
  · have h : naohNormality 18.5 * 10 ^ 4 = 25000 / 37 := by
      norm_num [naohNormality]
    rw [display4, h, round_eq]
    norm_num

/-- C3: the CST extraction of `phenol_graph` works on the de-duplicated
table sorted ascending by `% Phenol`; the selected record is a member of
that table, carries the maximum mean temperature, and is the first such
record in table order; `cst_temp` and `cst_conc` are its mean temperature
and `% Phenol`.  On the table with mean temperatures `[60.0, 64.1875,
61.0]` the extracted CST point is `(64.1875, 62.5)`. -/
theorem cst_extraction (t : List PhenolRecord) (r : PhenolRecord)
    (h : firstMax (sortByPct (dedupKeepFirst t)) = some r) :
    (r ∈ sortByPct (dedupKeepFirst t) ∧
      (∀ q ∈ sortByPct (dedupKeepFirst t), q.meanC ≤ r.meanC) ∧
      ∃ l₁ l₂, sortByPct (dedupKeepFirst t) = l₁ ++ r :: l₂ ∧
        ∀ q ∈ l₁, q.meanC < r.meanC) ∧
    cstPoint t = some (r.meanC, r.percentC) ∧
    cstPoint [⟨5, 20, 20, 62, 58, 60⟩, ⟨5, 3, 62.5, 66.75, 61.625, 64.1875⟩,
        ⟨8, 2, 80, 63, 59, 61⟩] = some (64.1875, 62.5) := by
  refine ⟨firstMax_spec _ r h, ?_, ?_⟩
  · rw [cstPoint, h, Option.map_some']
  · norm_num [cstPoint, dedupKeepFirst, sortByPct, insertByPct, firstMax]

/-- Witness for C3 on the three-row example table. -/
theorem cst_extraction_witness :
    cstPoint [⟨5, 20, 20, 62, 58, 60⟩, ⟨5, 3, 62.5, 66.75, 61.625, 64.1875⟩,
        ⟨8, 2, 80, 63, 59, 61⟩] = some (64.1875, 62.5) :=
  (cst_extraction
      [⟨5, 20, 20, 62, 58, 60⟩, ⟨5, 3, 62.5, 66.75, 61.625, 64.1875⟩,
        ⟨8, 2, 80, 63, 59, 61⟩]
      ⟨5, 3, 62.5, 66.75, 61.625, 64.1875⟩
      (by norm_num [dedupKeepFirst, sortByPct, insertByPct, firstMax])).2.2

/-- C6: when the table holds no record for the stored `(phenol, water)`
pair, running the record step once leaves exactly one record for the pair,
and running it a second time is a silent no-op. -/
theorem record_step_idempotent (pv wv total dis rea : ℚ)
    (t : List PhenolRecord) (h : pairCount pv wv t = 0) :
    pairCount pv wv (phenolRecordStep pv wv total dis rea t) = 1 ∧
      phenolRecordStep pv wv total dis rea
          (phenolRecordStep pv wv total dis rea t) =
        phenolRecordStep pv wv total dis rea t := by
  have hf : t.filter (matchesPair pv wv) = [] :=
    List.length_eq_zero.mp h
  have hr : matchesPair pv wv
      ⟨pv, wv, pv / total * 100, dis, rea, (dis + rea) / 2⟩ = true := by
    simp [matchesPair]
  constructor
  · simp [phenolRecordStep, pairCount, hf, List.filter_append, hr]
  · simp [phenolRecordStep, hf, List.filter_append, hr]

/-- Witness for C6: recording phenol 5 ml / water 3 ml into the empty
table twice leaves one matching record. -/
theorem record_step_idempotent_witness :
    pairCount 5 3 (phenolRecordStep 5 3 8 66.75 61.625 []) = 1 ∧
      phenolRecordStep 5 3 8 66.75 61.625
          (phenolRecordStep 5 3 8 66.75 61.625 []) =
        phenolRecordStep 5 3 8 66.75 61.625 [] :=
  record_step_idempotent 5 3 8 66.75 61.625 [] (by decide)

/-- C7: "Record Measurement" appends `{naohAdded, conductance}` exactly
when `naohAdded` is not yet a key, a duplicate is a silent no-op, and the
at-most-one-record-per-key invariant of the conductance table is
preserved. -/
theorem cond_record_dedup (x : ℚ) (t : List CondRecord) :
    (isKey x t = true → condRecordStep x t = t) ∧
    (isKey x t = false →
      condRecordStep x t = t ++ [⟨x, conductanceModel x⟩]) ∧
    condRecordStep x (condRecordStep x t) = condRecordStep x t ∧
    ((∀ y, keyCount y t ≤ 1) → ∀ y, keyCount y (condRecordStep x t) ≤ 1) := by
  refine ⟨fun hk => by simp [condRecordStep, hk],
    fun hk => by simp [condRecordStep, hk], ?_, ?_⟩
  · by_cases hk : isKey x t
    · simp [condRecordStep, hk]
    · have hk2 : isKey x (t ++ [⟨x, conductanceModel x⟩]) = true := by
        simp [isKey]
      simp [condRecordStep, hk, hk2]
  · intro hinv y
    by_cases hk : isKey x t
    · simpa [condRecordStep, hk] using hinv y
    · have hk' : isKey x t = false := by simpa using hk
      have h0 := keyCount_eq_zero_of_not_isKey x t hk'
      rw [condRecordStep, hk']
      simp only [Bool.false_eq_true, if_false, keyCount, List.filter_append,
        List.length_append]
      by_cases hyx : y = x
      · subst hyx
        have hz : keyCount y t = 0 := h0
        rw [keyCount] at hz
        simp [hz]
      · have h1 : (([⟨x, conductanceModel x⟩] : List CondRecord).filter
            fun q => decide (q.naohMl = y)) = [] := by
          simp [Ne.symm hyx]
        rw [h1]
        simpa [keyCount] using hinv y

/-- Witness for C7: recording `naohAdded = 2` into the empty table appends
one row, and recording it again changes nothing. -/
theorem cond_record_dedup_witness :
    condRecordStep 2 [] = [⟨2, conductanceModel 2⟩] ∧
      condRecordStep 2 (condRecordStep 2 []) = condRecordStep 2 [] :=
  ⟨(cond_record_dedup 2 []).2.1 rfl, (cond_record_dedup 2 []).2.2.1⟩

/-- C9: "add more water" adds `2.0` ml when below the cap, and from any
starting volume in `[3, 36]` no number of repeated invocations drives the
volume above `36.0`. -/
theorem water_cap (w : ℚ) (_h0 : 3 ≤ w) (h1 : w ≤ 36) (n : ℕ) :
    (w + 2 ≤ 36 → addMoreWater w = w + 2) ∧ addMoreWater^[n] w ≤ 36 :=
  ⟨fun hle => by rw [addMoreWater]; exact min_eq_left hle,
    addMoreWater_iterate_le n w h1⟩

/-- Witness for C9 at `w = 30` with ten repeated invocations. -/
theorem water_cap_witness :
    addMoreWater 30 = 30 + 2 ∧ addMoreWater^[10] (30 : ℚ) ≤ 36 :=
  ⟨(water_cap 30 (by norm_num) (by norm_num) 0).1 (by norm_num),
    (water_cap 30 (by norm_num) (by norm_num) 10).2⟩

/-- C10: the initial session state carries `naoh_normality = 0.1`, and
"Proceed to Titration" changes only the page, leaving `naoh_normality` and
every other session field unchanged; so a session that never runs
"Calculate NaOH Normality" enters the titration page with normality
`0.1`. -/
theorem proceed_frame (s : SessionState) :
    initSession.naoh_normality = 0.1 ∧
      (proceedToTitration s).page = "cond_titration" ∧
      (proceedToTitration s).naoh_normality = s.naoh_normality ∧
      (proceedToTitration s).phenol_data = s.phenol_data ∧
      (proceedToTitration s).water_vol = s.water_vol ∧
      (proceedToTitration s).cond_data = s.cond_data ∧
      (proceedToTitration s).current_naoh = s.current_naoh ∧
      (proceedToTitration initSession).naoh_normality = 0.1 :=
  ⟨rfl, rfl, rfl, rfl, rfl, rfl, rfl, rfl⟩

end ExperimentApp
